import Mathlib

/-!
Shallow embedding of the webhook-delivery core of the whatsapp-chat-viewer
repository (routes/chat.py, db/operations.py, db/models.py).

Python machine values are modelled as follows: JSON values become the
inductive `JVal`; Python `None` at an optional slot becomes `Option`;
Python truthiness of strings and JSON values is made explicit by the
`pyTruthy*` helpers; wall-clock readings (`time.time()`) are natural-number
seconds supplied as explicit inputs; the outcome of each HTTP request is an
explicit oracle input (`NetOutcome` / the fields of `DownloadEnv`).
-/

/-- JSON-like values carried in webhook payload dicts and request bodies. -/
inductive JVal where
  | jnull
  | jstr (s : String)
  | jint (n : Int)
  | jbool (b : Bool)
deriving DecidableEq, Repr

/-- Python truthiness of an optional string slot: `None` and the empty
string are falsy (`if not x:`). -/
def pyTruthyStr : Option String → Bool
  | none => false
  | some s => s ≠ ""

/-- Python truthiness of a JSON value: `None`, `0`, `False` and the empty
string are falsy. -/
def jTruthy : JVal → Bool
  | .jnull => false
  | .jint n => n ≠ 0
  | .jbool b => b
  | .jstr s => s ≠ ""

/-- Python `x or y` on an optional string slot: keep `x` when truthy,
otherwise fall back to `y`. -/
def pyOrStr (x : Option String) (y : String) : String :=
  match x with
  | some s => if s = "" then y else s
  | none => y

/-- Python `int(v)` on a JSON value: ints convert to themselves, bools to
0/1, decimal strings parse, `None` and other strings raise (`none`). -/
def pyInt : JVal → Option Int
  | .jint n => some n
  | .jbool b => some (if b then 1 else 0)
  | .jstr s => s.toInt?
  | .jnull => none

/- String primitives, re-implemented by structural recursion over the
character list so that every definition below evaluates inside the
kernel.  Each is extensionally the library operation named in its
comment. -/

/-- Python `str.lower` (`String.toLower`). -/
def strLower (s : String) : String := String.mk (s.data.map Char.toLower)

/-- Python `str.strip()` (`String.trim`): whitespace off both ends. -/
def strStrip (s : String) : String :=
  String.mk (((s.data.dropWhile Char.isWhitespace).reverse.dropWhile
    Char.isWhitespace).reverse)

/-- Split a character list at every occurrence of a separator character
(`String.splitOn` with a one-character separator). -/
def charSplit (sep : Char) : List Char → List (List Char)
  | [] => [[]]
  | c :: cs =>
      let rest := charSplit sep cs
      if c = sep then [] :: rest
      else
        match rest with
        | [] => [[c]]
        | r :: rs => (c :: r) :: rs

/-- Python `s.startswith(p)` (`String.startsWith`). -/
def strStartsWith (s p : String) : Bool := p.data.isPrefixOf s.data

/-- The suffix after the first occurrence of a separator sequence, when
one exists. -/
def afterSeq (sep : List Char) : List Char → Option (List Char)
  | [] => if sep.isEmpty then some [] else none
  | c :: cs =>
      if sep.isPrefixOf (c :: cs) then some ((c :: cs).drop sep.length)
      else afterSeq sep cs

/-- Join character-list path segments with slashes. -/
def joinWithSlash : List (List Char) → List Char
  | [] => []
  | [x] => x
  | x :: xs => x ++ '/' :: joinWithSlash xs

/- ------------------------------------------------------------------ -/
/- Circuit breaker (chat.py lines 60 to 85)                           -/
/- ------------------------------------------------------------------ -/

/-- The process-wide mutable globals `webhook_failures` and
`last_failure_time` of chat.py. -/
structure BreakerState where
  webhook_failures : Nat
  last_failure_time : Option Nat
deriving DecidableEq, Repr

def MAX_FAILURES_BEFORE_CIRCUIT_BREAK : Nat := 5

def CIRCUIT_BREAK_DURATION : Nat := 60

/-- chat.py `is_circuit_broken`: returns the flag together with the updated
globals (the breaker resets itself once the cooldown window has elapsed).
Python tests `if last_failure_time and ...`, so a stored timestamp of `0`
is falsy and also triggers the reset branch; `time.time() - t` compared
with `< 60` behaves like truncated Nat subtraction (a negative difference
and a zero difference both pass the comparison). -/
def is_circuit_broken (now : Nat) (s : BreakerState) : Bool × BreakerState :=
  if s.webhook_failures ≥ MAX_FAILURES_BEFORE_CIRCUIT_BREAK then
    match s.last_failure_time with
    | some t =>
        if t ≠ 0 ∧ now - t < CIRCUIT_BREAK_DURATION then (true, s)
        else (false, ⟨0, none⟩)
    | none => (false, ⟨0, none⟩)
  else (false, s)

/-- chat.py `record_webhook_result`: success decrements the failure count
(`max(0, n - 1)`, which is Nat subtraction), failure increments it and
stamps `last_failure_time` with the current clock reading. -/
def record_webhook_result (success : Bool) (now : Nat) (s : BreakerState) : BreakerState :=
  if success then { s with webhook_failures := s.webhook_failures - 1 }
  else { webhook_failures := s.webhook_failures + 1, last_failure_time := some now }

/- ------------------------------------------------------------------ -/
/- Webhook envelope and validation (chat.py lines 87 to 110, 166-172) -/
/- ------------------------------------------------------------------ -/

def evtKey : String := "event_type"

def phoneKey : String := "phone_number"

def tsKey : String := "timestamp"

/-- chat.py `send_webhook` payload construction: the dict literal with the
three generated fields followed by `**data`, whose keys override the
generated ones.  Represented as an association list read by `List.lookup`
(first hit wins), so the `data` entries come first. -/
def webhook_envelope (webhook_type phone_number ts : String)
    (data : List (String × JVal)) : List (String × JVal) :=
  data ++ [(evtKey, .jstr webhook_type), (phoneKey, .jstr phone_number), (tsKey, .jstr ts)]

def required_fields : List String := [evtKey, phoneKey, tsKey]

/-- One required-field check of `validate_webhook_data`:
`field not in data or data[field] is None` negated. -/
def fieldPresent (d : List (String × JVal)) (f : String) : Bool :=
  match d.lookup f with
  | none => false
  | some .jnull => false
  | some _ => true

/-- chat.py `validate_webhook_data`.  JSON serialization of a `JVal` dict
always succeeds (`json.dumps` with `default=str`), so only the field checks
remain.  The phone check mirrors `not phone or len(phone) < 8`; a
non-string phone value makes `len` raise and the enclosing `except` turn
that into `False`, hence the catch-all branch. -/
def validate_webhook_data (d : List (String × JVal)) : Bool :=
  required_fields.all (fieldPresent d) &&
  (match d.lookup phoneKey with
   | some (.jstr p) => (p ≠ "") && p.length ≥ 8
   | _ => false)

/- ------------------------------------------------------------------ -/
/- send_webhook (chat.py lines 143 to 242)                            -/
/- ------------------------------------------------------------------ -/

/-- Outcome of the HTTP POST when one is issued: `ok` means the request
returned and `raise_for_status` did not raise; `fail` covers
timeout, connection error, raised HTTP error and any other request
exception. -/
inductive NetOutcome where
  | ok
  | fail
deriving DecidableEq, Repr

/-- Result of one `send_webhook` call: the boolean return value, the
breaker globals afterwards, and whether network I/O was performed. -/
structure SendResult where
  sent : Bool
  state : BreakerState
  httpAttempted : Bool
deriving DecidableEq, Repr

/-- chat.py `send_webhook`.  `webhook_url` is `config.webhook_url`
(falsy when unset or empty), `now` the clock reading, `ts` the generated
ISO timestamp string, `net` the oracle outcome of the POST. -/
def send_webhook (webhook_url : Option String) (now : Nat) (ts : String)
    (net : NetOutcome) (webhook_type phone_number : String)
    (data : List (String × JVal)) (s : BreakerState) : SendResult :=
  if pyTruthyStr webhook_url = false then
    { sent := false, state := s, httpAttempted := false }
  else
    let checked := is_circuit_broken now s
    if checked.1 then
      { sent := false, state := checked.2, httpAttempted := false }
    else
      let webhook_data := webhook_envelope webhook_type phone_number ts data
      if validate_webhook_data webhook_data = false then
        { sent := false, state := checked.2, httpAttempted := false }
      else
        match net with
        | .ok =>
            { sent := true, state := record_webhook_result true now checked.2,
              httpAttempted := true }
        | .fail =>
            { sent := false, state := record_webhook_result false now checked.2,
              httpAttempted := true }

/- ------------------------------------------------------------------ -/
/- send_webhook_with_retry (chat.py lines 112 to 141)                 -/
/- ------------------------------------------------------------------ -/

/-- Per-attempt oracle inputs for the retry loop body: the clock reading,
the generated timestamp string and the HTTP outcome of that attempt. -/
structure AttemptEnv where
  now : Nat
  ts : String
  net : NetOutcome

/-- Observable result of the background retry task: the final success
flag, the breaker globals, the number of `send_webhook` calls made and
the list of backoff sleeps performed (in seconds, in order). -/
structure RetryResult where
  success : Bool
  state : BreakerState
  attempts : Nat
  delays : List Nat
deriving DecidableEq, Repr

/-- The `for attempt in range(max_retries + 1)` loop of chat.py
`_retry_webhook`, recursing on the remaining iteration count.  On a
successful attempt the wrapper records one extra success and breaks. -/
def retry_loop (webhook_url : Option String) (webhook_type phone_number : String)
    (env : Nat → AttemptEnv) (data : List (String × JVal)) :
    Nat → Nat → BreakerState → RetryResult
  | _, 0, s => { success := false, state := s, attempts := 0, delays := [] }
  | attempt, remaining + 1, s =>
      let e := env attempt
      let ds : List Nat := if attempt > 0 then [min (2 ^ attempt) 5] else []
      let r := send_webhook webhook_url e.now e.ts e.net webhook_type phone_number data s
      if r.sent then
        { success := true, state := record_webhook_result true e.now r.state,
          attempts := 1, delays := ds }
      else
        let rest := retry_loop webhook_url webhook_type phone_number env data
          (attempt + 1) remaining r.state
        { success := rest.success, state := rest.state,
          attempts := rest.attempts + 1, delays := ds ++ rest.delays }

/-- chat.py `send_webhook_with_retry` / `_retry_webhook`: the whole
background task.  `finalNow` is the clock reading at the extra
`record_webhook_result(False)` performed when every attempt has failed. -/
def send_webhook_with_retry (webhook_url : Option String)
    (webhook_type phone_number : String) (env : Nat → AttemptEnv)
    (data : List (String × JVal)) (max_retries : Nat) (finalNow : Nat)
    (s : BreakerState) : RetryResult :=
  let r := retry_loop webhook_url webhook_type phone_number env data 0 (max_retries + 1) s
  if r.success then r
  else { r with state := record_webhook_result false finalNow r.state }

/- ------------------------------------------------------------------ -/
/- Concrete scenario inputs used by the claim theorems                -/
/- ------------------------------------------------------------------ -/

def sampleUrl : Option String := some ("http://h")

def sampleTs : String := "2024-01-01T00:00:00"

def samplePhone : String := "12345678"

def msgEvt : String := "message"

/-- Delivery oracle that fails on attempts 0 and 1 and succeeds from
attempt 2 on (the fails-twice-then-succeeds scenario of the spec). -/
def retryScenarioEnv : Nat → AttemptEnv := fun i =>
  { now := i + 1, ts := sampleTs, net := if i < 2 then NetOutcome.fail else NetOutcome.ok }

/-- Delivery oracle on which every attempt fails. -/
def retryFailEnv : Nat → AttemptEnv := fun i =>
  { now := i + 1, ts := sampleTs, net := NetOutcome.fail }

/-- Delivery oracle on which every attempt succeeds. -/
def retryOkEnv : Nat → AttemptEnv := fun i =>
  { now := i + 1, ts := sampleTs, net := NetOutcome.ok }

/- ------------------------------------------------------------------ -/
/- File naming helpers (chat.py lines 19 to 58, 978 to 1092)          -/
/- ------------------------------------------------------------------ -/

def ALLOWED_EXTENSIONS : List String :=
  ["png", "jpg", "jpeg", "gif", "webp",
   "mp4", "avi", "mov", "wmv", "webm",
   "mp3", "wav", "ogg", "m4a", "aac",
   "pdf", "doc", "docx", "txt",
   "zip", "rar"]

def MAX_UPLOAD_SIZE : Nat := 50 * 1024 * 1024

/-- Python `'.' in filename`. -/
def hasDot (s : String) : Bool := s.data.contains '.'

/-- Python `filename.rsplit('.', 1)[1]`: the substring after the last
dot; only ever used under a `hasDot` guard. -/
def extAfterLastDot (s : String) : String :=
  String.mk ((charSplit '.' s.data).getLastD [])

/-- chat.py `allowed_file`. -/
def allowed_file (filename : String) : Bool :=
  hasDot filename && ALLOWED_EXTENSIONS.contains (strLower (extAfterLastDot filename))

/-- chat.py `get_file_type`: coarse attachment type from the filename
extension. -/
def get_file_type (filename : String) : String :=
  let extension := if hasDot filename then strLower (extAfterLastDot filename) else ""
  if ["png", "jpg", "jpeg", "gif", "webp"].contains extension then "image"
  else if ["mp4", "avi", "mov", "wmv", "webm"].contains extension then "video"
  else if ["mp3", "wav", "ogg", "m4a", "aac"].contains extension then "audio"
  else if extension = "pdf" then "pdf"
  else if ["doc", "docx", "txt"].contains extension then "document"
  else "file"

/-- chat.py `get_extension_from_type`. -/
def get_extension_from_type (file_type : String) : String :=
  if file_type = "image" then "jpg"
  else if file_type = "video" then "mp4"
  else if file_type = "audio" then "mp3"
  else if file_type = "pdf" then "pdf"
  else if file_type = "document" then "doc"
  else if file_type = "file" then "bin"
  else "bin"

/-- werkzeug `secure_filename`, an external collaborator; modelled as the
identity, since its sanitization is not observable by any property proved
here and every concrete filename used below is already sanitized. -/
def secure_filename (s : String) : String := s

/-- Python `os.path.basename`. -/
def basename (s : String) : String :=
  String.mk ((charSplit '/' s.data).getLastD [])

/-- Path component of `urllib.parse.urlparse` for the URL shapes handled
here: strip an optional fragment and query, then a scheme://host part. -/
def urlPath (url : String) : String :=
  let noFrag := (charSplit '#' url.data).headD []
  let noQuery := (charSplit '?' noFrag).headD []
  match afterSeq ([':', '/', '/']) noQuery with
  | some rest =>
      match charSplit '/' rest with
      | [] => ""
      | [_] => ""
      | _ :: ps => String.mk ('/' :: joinWithSlash ps)
  | none => String.mk noQuery

/-- chat.py `extract_filename_from_url`: basename of the URL path when it
carries a dot, else the generic fallback name. -/
def extract_filename_from_url (url : String) : String :=
  let filename := basename (urlPath url)
  if (filename != "") && hasDot filename then secure_filename filename
  else "attachment"

/- ------------------------------------------------------------------ -/
/- download_attachment_enhanced (chat.py lines 891 to 976)            -/
/- ------------------------------------------------------------------ -/

/-- Oracle inputs for one external download: the fetch outcome
(`requests.get` plus `raise_for_status`), the content-length header, the
number of bytes actually streamed to disk, the filename recovered by
`extract_filename_from_response` when none was provided, and the
uuid-and-timestamp part of the generated unique filename. -/
structure DownloadEnv where
  netOk : Bool
  content_length : Option Nat
  actual_bytes : Nat
  resp_filename : String
  unique_stem : String

/-- Result dict of chat.py `download_attachment_enhanced`; `saved`
records whether a file was written to local blob storage.  The failure
branches all return before the file write, so `saved` is true exactly on
the success path.  The human-readable `message` strings of the failure
dicts are logging detail and are not modelled. -/
structure DownloadResult where
  success : Bool
  saved : Bool
  url : Option String
  full_url : Option String
  filename : Option String
  size : Option Nat
  type : Option String
deriving DecidableEq, Repr

def downloadFailure : DownloadResult :=
  { success := false, saved := false, url := none, full_url := none,
    filename := none, size := none, type := none }

/-- chat.py `download_attachment_enhanced`.  The 50 MiB ceiling is
checked against `int(response.headers.get('content-length',
original_size or 0))`; the bytes actually written are measured afterwards
with `os.path.getsize` but never re-checked against the ceiling. -/
def download_attachment_enhanced (env : DownloadEnv) (url : String)
    (original_filename original_type : Option String)
    (original_size : Option JVal) : DownloadResult :=
  if env.netOk = false then downloadFailure
  else
    let fallback := original_size.getD JVal.jnull
    let declared : Option Int :=
      match env.content_length with
      | some n => some (n : Int)
      | none => pyInt (if jTruthy fallback then fallback else JVal.jint 0)
    match declared with
    | none => downloadFailure
    | some file_size =>
        if (MAX_UPLOAD_SIZE : Int) < file_size then downloadFailure
        else
          let filename0 :=
            if pyTruthyStr original_filename then
              secure_filename (original_filename.getD "")
            else env.resp_filename
          let gate : Option String :=
            if hasDot filename0 && !allowed_file filename0 then
              if pyTruthyStr original_type = false
                  || (original_type == some ("file")) then none
              else
                some ("attachment." ++ get_extension_from_type (original_type.getD ""))
            else some filename0
          match gate with
          | none => downloadFailure
          | some filename =>
              let file_extension :=
                if hasDot filename then (extAfterLastDot filename).toLower else "bin"
              let unique_filename := env.unique_stem ++ "." ++ file_extension
              let actual_size := env.actual_bytes
              let determined_type := pyOrStr original_type (get_file_type filename)
              let file_url := "/chat/uploads/" ++ unique_filename
              { success := true, saved := true,
                url := some file_url,
                full_url := some ("http://localhost:5000" ++ file_url),
                filename := some (pyOrStr original_filename filename),
                size := some actual_size,
                type := some determined_type }

/- ------------------------------------------------------------------ -/
/- Attachment cleaner (db/operations.py lines 195 to 257)             -/
/- ------------------------------------------------------------------ -/

/-- Cleaned attachment dict produced by
`MessageOperations._clean_attachment_data`. -/
structure CleanedAttachment where
  attachment_url : Option String
  attachment_full_url : Option String
  attachment_name : Option String
  attachment_type : Option String
  attachment_size : Option Int
deriving DecidableEq, Repr

def emptyCleaned : CleanedAttachment := ⟨none, none, none, none, none⟩

def valid_types : List String := ["image", "video", "audio", "pdf", "document", "file"]

/-- Fallback display name keyed by the raw input type
(`type_names.get(attachment_type, 'attachment')`). -/
def type_fallback_name (attachment_type : Option String) : String :=
  match attachment_type with
  | some t =>
      if t = "image" then "image"
      else if t = "video" then "video"
      else if t = "audio" then "audio"
      else if t = "pdf" then "document.pdf"
      else if t = "document" then "document"
      else if t = "file" then "file"
      else "attachment"
  | none => "attachment"

/-- operations.py `MessageOperations._clean_attachment_data`.  The size
slot carries the raw JSON value handed in by the HTTP layer; `int()` on
it is `pyInt`, and a raised conversion is caught and dropped to `None`.
-/
def clean_attachment_data (attachment_url attachment_full_url attachment_name
    attachment_type : Option String) (attachment_size : Option JVal) :
    CleanedAttachment :=
  if pyTruthyStr attachment_url = false then emptyCleaned
  else
    { attachment_url := some (strStrip (attachment_url.getD "")),
      attachment_full_url := some (pyOrStr attachment_full_url (attachment_url.getD "")),
      attachment_name :=
        some (if pyTruthyStr attachment_name then strStrip (attachment_name.getD "")
              else type_fallback_name attachment_type),
      attachment_type :=
        some (if pyTruthyStr attachment_type
                  && valid_types.contains (attachment_type.getD "")
              then attachment_type.getD "" else "file"),
      attachment_size :=
        match attachment_size with
        | none => none
        | some v =>
            match pyInt v with
            | some n => if 0 < n then some n else none
            | none => none }

/- ------------------------------------------------------------------ -/
/- Storage operations (db/operations.py, db/models.py)                -/
/- ------------------------------------------------------------------ -/

/-- db/models.py `PhoneNumber` row (the fields the core reads). -/
structure Phone where
  number : String
  ai_active : Bool
deriving DecidableEq, Repr

/-- db/models.py `Message` row (the fields the core writes); the owning
phone row stands in for the integer foreign key. -/
structure StoredMessage where
  phone_number : String
  content : String
  type : String
  attachment : CleanedAttachment
deriving DecidableEq, Repr

/-- In-memory stand-in for the SQLAlchemy store. -/
structure DB where
  phones : List Phone
  messages : List StoredMessage
deriving DecidableEq, Repr

/-- db/models.py `Message.validate_message_type`. -/
def validate_message_type (msg_type : String) : Bool :=
  ["lead", "user", "ai"].contains msg_type

/-- operations.py `PhoneOperations.get_phone_by_number`. -/
def get_phone_by_number (db : DB) (number : String) : Option Phone :=
  db.phones.find? (fun p => p.number == number)

/-- operations.py `PhoneOperations.create_phone_number`: returns the
existing row when present, otherwise inserts a new one with the
automation flag off.  The storage collaborator is assumed healthy, so the
rollback-and-return-None branch of the except clause is not modelled. -/
def create_phone_number (db : DB) (number : String) : Phone × DB :=
  match get_phone_by_number db number with
  | some p => (p, db)
  | none =>
      let p : Phone := { number := number, ai_active := false }
      (p, { db with phones := db.phones ++ [p] })

/-- operations.py `MessageOperations.create_message`.  The source first
calls `get_phone_by_number` and only then `create_phone_number`, whose
body repeats the lookup; composing them is exactly `create_phone_number`.
Python `content` may be `None` or a string; both falsy cases behave like
the empty string everywhere the value is read, so it is a plain `String`
here. -/
def create_message (db : DB) (phone_number content message_type : String)
    (attachment_url attachment_full_url attachment_name attachment_type : Option String)
    (attachment_size : Option JVal) : Option StoredMessage × DB :=
  if validate_message_type message_type = false then (none, db)
  else if content = "" ∧ pyTruthyStr attachment_url = false then (none, db)
  else
    let got := create_phone_number db phone_number
    let cleaned := clean_attachment_data attachment_url attachment_full_url
      attachment_name attachment_type attachment_size
    let msg : StoredMessage :=
      { phone_number := got.1.number, content := content,
        type := message_type, attachment := cleaned }
    (some msg, { got.2 with messages := got.2.messages ++ [msg] })

/- ------------------------------------------------------------------ -/
/- The send-message endpoint (chat.py lines 283 to 472)               -/
/- ------------------------------------------------------------------ -/

/-- chat.py `send_message` line 338: outbound classification from the
automation flag of the phone row. -/
def send_message_type (ai_active : Bool) : String :=
  if ai_active then "ai" else "user"

/-- chat.py `receive_message` line 858: inbound messages are stored with
this kind. -/
def receive_message_type : String := "lead"

/-- JSON value of an optional string request field. -/
def optStrJVal : Option String → JVal
  | none => JVal.jnull
  | some s => JVal.jstr s

/-- Environment of one send-message request: clock reading, generated
timestamp, network oracle for the immediate webhook attempt, configured
webhook url and the logged-in user. -/
structure SendEnv where
  now : Nat
  ts : String
  net : NetOutcome
  webhook_url : Option String
  user_email : String

/-- Synchronous JSON response of the /send-message endpoint, plus the
observation whether a background retry task was spawned. -/
structure SendMessageResponse where
  success : Bool
  http_status : Nat
  message_type : Option String
  webhook_sent : Option Bool
  webhook_sent_immediately : Bool
  retry_scheduled : Bool
deriving DecidableEq, Repr

def sendError (status : Nat) : SendMessageResponse :=
  { success := false, http_status := status, message_type := none,
    webhook_sent := none, webhook_sent_immediately := false,
    retry_scheduled := false }

/-- chat.py `send_message` (the /send-message endpoint body).  Returns
the synchronous response, the store afterwards and the breaker state
after the immediate attempt; the fire-and-forget retry task is reported
through `retry_scheduled` (its later mutations happen outside this
request). -/
def send_message (env : SendEnv) (db : DB) (breaker : BreakerState)
    (phone_number : Option String) (content : String)
    (attachment_url attachment_full_url attachment_name attachment_type : Option String)
    (attachment_size : Option JVal) :
    SendMessageResponse × DB × BreakerState :=
  if pyTruthyStr phone_number = false then (sendError 400, db, breaker)
  else if content = "" ∧ pyTruthyStr attachment_url = false then
    (sendError 400, db, breaker)
  else
    let pn := phone_number.getD ""
    match get_phone_by_number db pn with
    | none => (sendError 404, db, breaker)
    | some phone =>
        let message_type := send_message_type phone.ai_active
        let created := create_message db pn content message_type attachment_url
          attachment_full_url attachment_name attachment_type attachment_size
        match created.1 with
        | none => (sendError 500, created.2, breaker)
        | some _msg =>
            let webhook_data :=
              [("message", JVal.jstr content),
               ("message_type", JVal.jstr message_type),
               ("ai_active", JVal.jbool phone.ai_active),
               ("attachment_url", optStrJVal attachment_url),
               ("attachment_full_url", optStrJVal attachment_full_url),
               ("attachment_name", optStrJVal attachment_name),
               ("attachment_type", optStrJVal attachment_type),
               ("attachment_size", attachment_size.getD JVal.jnull),
               ("message_id", JVal.jint (created.2.messages.length : Int)),
               ("sent_by", JVal.jstr env.user_email)]
            let wr := send_webhook env.webhook_url env.now env.ts env.net
              msgEvt pn webhook_data breaker
            -- chat.py lines 391 to 398: both branches set webhook_sent to
            -- True; the background retry is scheduled only when the
            -- immediate attempt failed
            ({ success := true, http_status := 200,
               message_type := some message_type,
               webhook_sent := some (if wr.sent then true else true),
               webhook_sent_immediately := wr.sent,
               retry_scheduled := !wr.sent }, created.2, wr.state)

/- ------------------------------------------------------------------ -/
/- The receive-message endpoint (chat.py lines 726 to 877)            -/
/- ------------------------------------------------------------------ -/

/-- Environment of one receive-message request: the request scheme and
host prefix, the oracle for an external download, and the size of a
referenced local upload when the file exists. -/
structure ReceiveEnv where
  scheme_host : String
  denv : DownloadEnv
  local_size : Option Nat

/-- JSON response of the /receive-message endpoint. -/
structure ReceiveResponse where
  success : Bool
  http_status : Nat
  attachment_downloaded : Bool
deriving DecidableEq, Repr

def receiveError (status : Nat) : ReceiveResponse :=
  { success := false, http_status := status, attachment_downloaded := false }

def uploadsRoot : String := "/chat/uploads/"

/-- chat.py receive_message lines 775 to 780: look the phone up and
create it when absent. -/
def ensure_phone (db : DB) (pn : String) : DB :=
  match get_phone_by_number db pn with
  | some _ => db
  | none => (create_phone_number db pn).2

/-- The final attachment variables of `receive_message` (chat.py lines
782 to 847). -/
structure FinalAttachment where
  url : Option String
  full_url : Option String
  name : Option String
  type : Option String
  size : Option JVal

/-- chat.py `receive_message` attachment processing: local references are
kept, external URLs are downloaded with fallback to the original URL and
supplied metadata on failure. -/
def resolve_attachment (env : ReceiveEnv) (attachment_url attachment_name
    attachment_type : Option String) (attachment_size : Option JVal) :
    FinalAttachment :=
  if pyTruthyStr attachment_url = false then
    { url := none, full_url := none, name := none, type := none, size := none }
  else
    let u := attachment_url.getD ""
    if strStartsWith u uploadsRoot then
      let name := pyOrStr attachment_name (basename u)
      { url := some u, full_url := some (env.scheme_host ++ u),
        name := some name,
        type := some (pyOrStr attachment_type (get_file_type name)),
        size := env.local_size.map (fun n => JVal.jint (n : Int)) }
    else
      let dr := download_attachment_enhanced env.denv u attachment_name
        attachment_type attachment_size
      if dr.success then
        { url := dr.url, full_url := dr.full_url, name := dr.filename,
          type := dr.type, size := dr.size.map (fun n => JVal.jint (n : Int)) }
      else
        { url := some u, full_url := some u,
          name := some (pyOrStr attachment_name (extract_filename_from_url u)),
          type := some (pyOrStr attachment_type ("file")),
          size := attachment_size }

/-- chat.py `receive_message` (the /receive-message endpoint body). -/
def receive_message (env : ReceiveEnv) (db : DB) (phone_number : Option String)
    (content : String) (attachment_url attachment_name attachment_type : Option String)
    (attachment_size : Option JVal) : ReceiveResponse × DB :=
  if pyTruthyStr phone_number = false then (receiveError 400, db)
  else if content = "" ∧ pyTruthyStr attachment_url = false then
    (receiveError 400, db)
  else
    let pn := phone_number.getD ""
    let db1 := ensure_phone db pn
    let fa := resolve_attachment env attachment_url attachment_name
      attachment_type attachment_size
    let created := create_message db1 pn content receive_message_type
      fa.url fa.full_url fa.name fa.type fa.size
    match created.1 with
    | none => (receiveError 500, created.2)
    | some _ =>
        ({ success := true, http_status := 200,
           attachment_downloaded := fa.url.isSome }, created.2)

/-- Concrete request environment used by the endpoint scenario theorems. -/
def sendEnv0 : SendEnv :=
  { now := 1, ts := sampleTs, net := NetOutcome.ok, webhook_url := sampleUrl,
    user_email := "admin@example.com" }

/-- Concrete request environment with a failing immediate webhook. -/
def sendEnvFail : SendEnv :=
  { now := 1, ts := sampleTs, net := NetOutcome.fail, webhook_url := sampleUrl,
    user_email := "admin@example.com" }

/-- Concrete receive environment with no attachment activity. -/
def recvEnv0 : ReceiveEnv :=
  { scheme_host := "http://localhost:5000",
    denv := { netOk := false, content_length := none, actual_bytes := 0,
              resp_filename := "attachment.bin", unique_stem := "u0" },
    local_size := none }

/-- Download oracle for an oversized body with no content-length header. -/
def bigDownloadEnv : DownloadEnv :=
  { netOk := true, content_length := none, actual_bytes := 104857600,
    resp_filename := "resp.bin", unique_stem := "u1" }

/- ------------------------------------------------------------------ -/
/- Helper lemmas about the circuit breaker                            -/
/- ------------------------------------------------------------------ -/

theorem is_circuit_broken_closed (now : Nat) (s : BreakerState)
    (hf : s.webhook_failures < MAX_FAILURES_BEFORE_CIRCUIT_BREAK) :
    is_circuit_broken now s = (false, s) := by
  simp [is_circuit_broken, Nat.not_le.mpr hf]

theorem is_circuit_broken_open (now : Nat) (s : BreakerState) (t : Nat)
    (hf : MAX_FAILURES_BEFORE_CIRCUIT_BREAK ≤ s.webhook_failures)
    (hl : s.last_failure_time = some t) (ht : t ≠ 0)
    (hw : now - t < CIRCUIT_BREAK_DURATION) :
    is_circuit_broken now s = (true, s) := by
  simp [is_circuit_broken, hf, hl, ht, hw]

theorem is_circuit_broken_reset (now : Nat) (s : BreakerState) (t : Nat)
    (hf : MAX_FAILURES_BEFORE_CIRCUIT_BREAK ≤ s.webhook_failures)
    (hl : s.last_failure_time = some t)
    (hw : CIRCUIT_BREAK_DURATION ≤ now - t) :
    is_circuit_broken now s = (false, ⟨0, none⟩) := by
  simp [is_circuit_broken, hf, hl, Nat.not_lt.mpr hw]

theorem is_circuit_broken_shape (now : Nat) (s : BreakerState) :
    is_circuit_broken now s = (true, s)
    ∨ is_circuit_broken now s = (false, s)
    ∨ is_circuit_broken now s = (false, ⟨0, none⟩) := by
  by_cases hf : s.webhook_failures < MAX_FAILURES_BEFORE_CIRCUIT_BREAK
  · right; left; exact is_circuit_broken_closed now s hf
  · push_neg at hf
    cases hl : s.last_failure_time with
    | none => right; right; simp [is_circuit_broken, hf, hl]
    | some t =>
      by_cases hc : t ≠ 0 ∧ now - t < CIRCUIT_BREAK_DURATION
      · left; exact is_circuit_broken_open now s t hf hl hc.1 hc.2
      · right; right; simp only [is_circuit_broken, hl, ge_iff_le, hf, if_true, if_neg hc]

/- ------------------------------------------------------------------ -/
/- Helper lemmas about send_webhook                                   -/
/- ------------------------------------------------------------------ -/

theorem send_webhook_of_net_ok (u : Option String) (now : Nat) (ts : String)
    (wt pn : String) (data : List (String × JVal)) (s : BreakerState)
    (hu : pyTruthyStr u = true)
    (hf : s.webhook_failures < MAX_FAILURES_BEFORE_CIRCUIT_BREAK)
    (hv : validate_webhook_data (webhook_envelope wt pn ts data) = true) :
    send_webhook u now ts NetOutcome.ok wt pn data s
      = ⟨true, record_webhook_result true now s, true⟩ := by
  simp [send_webhook, hu, is_circuit_broken_closed now s hf, hv]

theorem send_webhook_of_net_fail (u : Option String) (now : Nat) (ts : String)
    (wt pn : String) (data : List (String × JVal)) (s : BreakerState)
    (hu : pyTruthyStr u = true)
    (hf : s.webhook_failures < MAX_FAILURES_BEFORE_CIRCUIT_BREAK)
    (hv : validate_webhook_data (webhook_envelope wt pn ts data) = true) :
    send_webhook u now ts NetOutcome.fail wt pn data s
      = ⟨false, record_webhook_result false now s, true⟩ := by
  simp [send_webhook, hu, is_circuit_broken_closed now s hf, hv]

/-- C1: Circuit-breaker state machine.  Part 1: five consecutive failure
recordings from the zero state reach counter 5 with the last failure
timestamp; part 2: at counter 5 a check within the 60 second window
reports Open; part 3: while Open and within the window every
`send_webhook` call returns false with no network I/O and the state left
as is; part 4: a check that finds the window elapsed resets the breaker
to zero failures and no timestamp. -/
theorem circuit_breaker_state_machine :
    (∀ t1 t2 t3 t4 t5 : Nat,
      record_webhook_result false t5 (record_webhook_result false t4
        (record_webhook_result false t3 (record_webhook_result false t2
          (record_webhook_result false t1 ⟨0, none⟩))))
        = ⟨MAX_FAILURES_BEFORE_CIRCUIT_BREAK, some t5⟩)
    ∧ (∀ now t : Nat, t ≠ 0 → now - t < CIRCUIT_BREAK_DURATION →
        (is_circuit_broken now ⟨MAX_FAILURES_BEFORE_CIRCUIT_BREAK, some t⟩).1 = true)
    ∧ (∀ (u : Option String) (now : Nat) (ts : String) (net : NetOutcome)
        (wt pn : String) (data : List (String × JVal)) (s : BreakerState) (t : Nat),
        MAX_FAILURES_BEFORE_CIRCUIT_BREAK ≤ s.webhook_failures →
        s.last_failure_time = some t → t ≠ 0 → now - t < CIRCUIT_BREAK_DURATION →
        send_webhook u now ts net wt pn data s = ⟨false, s, false⟩)
    ∧ (∀ (now : Nat) (s : BreakerState) (t : Nat),
        MAX_FAILURES_BEFORE_CIRCUIT_BREAK ≤ s.webhook_failures →
        s.last_failure_time = some t → CIRCUIT_BREAK_DURATION ≤ now - t →
        is_circuit_broken now s = (false, ⟨0, none⟩)) := by
  refine ⟨fun t1 t2 t3 t4 t5 => rfl, fun now t ht hw => ?_, ?_, ?_⟩
  · simp [is_circuit_broken_open now ⟨MAX_FAILURES_BEFORE_CIRCUIT_BREAK, some t⟩ t
      (le_refl _) rfl ht hw]
  · intro u now ts net wt pn data s t hf hl ht hw
    by_cases hu : pyTruthyStr u = false
    · simp [send_webhook, hu]
    · simp [send_webhook, hu, is_circuit_broken_open now s t hf hl ht hw]
  · intro now s t hf hl hw
    exact is_circuit_broken_reset now s t hf hl hw

/-- Witness for C1 at concrete inputs: failures at times 10..30, a check
at time 40 (within the window) reports Open and skips delivery, a check
at time 95 (window elapsed) resets the breaker. -/
theorem circuit_breaker_state_machine_witness :
    record_webhook_result false 30 (record_webhook_result false 25
      (record_webhook_result false 20 (record_webhook_result false 15
        (record_webhook_result false 10 ⟨0, none⟩))))
      = (⟨MAX_FAILURES_BEFORE_CIRCUIT_BREAK, some 30⟩ : BreakerState)
    ∧ (is_circuit_broken 40 ⟨MAX_FAILURES_BEFORE_CIRCUIT_BREAK, some 30⟩).1 = true
    ∧ send_webhook sampleUrl 40 sampleTs NetOutcome.ok msgEvt samplePhone []
        ⟨MAX_FAILURES_BEFORE_CIRCUIT_BREAK, some 30⟩
        = ⟨false, ⟨MAX_FAILURES_BEFORE_CIRCUIT_BREAK, some 30⟩, false⟩
    ∧ is_circuit_broken 95 ⟨MAX_FAILURES_BEFORE_CIRCUIT_BREAK, some 30⟩
        = (false, ⟨0, none⟩) :=
  ⟨circuit_breaker_state_machine.1 10 15 20 25 30,
   circuit_breaker_state_machine.2.1 40 30 (by decide) (by decide),
   circuit_breaker_state_machine.2.2.1 sampleUrl 40 sampleTs NetOutcome.ok msgEvt
     samplePhone [] ⟨MAX_FAILURES_BEFORE_CIRCUIT_BREAK, some 30⟩ 30
     (le_refl _) rfl (by decide) (by decide),
   circuit_breaker_state_machine.2.2.2 95 ⟨MAX_FAILURES_BEFORE_CIRCUIT_BREAK, some 30⟩ 30
     (le_refl _) rfl (by decide)⟩

/- ------------------------------------------------------------------ -/
/- Helper lemmas about the retry loop                                 -/
/- ------------------------------------------------------------------ -/

theorem retry_loop_attempts_le (u : Option String) (wt pn : String)
    (env : Nat → AttemptEnv) (data : List (String × JVal)) :
    ∀ (r a : Nat) (s : BreakerState),
      (retry_loop u wt pn env data a r s).attempts ≤ r := by
  intro r
  induction r with
  | zero => intro a s; simp [retry_loop]
  | succ n ih =>
      intro a s
      simp only [retry_loop]
      split
      · simp
      · simpa using Nat.succ_le_succ (ih (a + 1) _)

theorem retry_loop_delays_of_pos (u : Option String) (wt pn : String)
    (env : Nat → AttemptEnv) (data : List (String × JVal)) :
    ∀ (r a : Nat), 1 ≤ a → ∀ s : BreakerState,
      (retry_loop u wt pn env data a r s).delays
        = (List.range' a (retry_loop u wt pn env data a r s).attempts).map
            (fun i => min (2 ^ i) 5) := by
  intro r
  induction r with
  | zero => intro a _ s; simp [retry_loop]
  | succ n ih =>
      intro a ha s
      have ha0 : a > 0 := ha
      simp only [retry_loop, if_pos ha0]
      split
      · simp [List.range']
      · have hrec := ih (a + 1) (Nat.le_succ_of_le ha)
          ((send_webhook u (env a).now (env a).ts (env a).net wt pn data s).state)
        simp [List.range', hrec]

theorem retry_delays_shape (u : Option String) (wt pn : String)
    (env : Nat → AttemptEnv) (data : List (String × JVal)) (maxR fn : Nat)
    (s : BreakerState) :
    (send_webhook_with_retry u wt pn env data maxR fn s).delays
      = (List.range' 1 ((send_webhook_with_retry u wt pn env data maxR fn s).attempts - 1)).map
          (fun i => min (2 ^ i) 5) := by
  have hdel : (send_webhook_with_retry u wt pn env data maxR fn s).delays
      = (retry_loop u wt pn env data 0 (maxR + 1) s).delays := by
    simp only [send_webhook_with_retry]; split <;> rfl
  have hatt : (send_webhook_with_retry u wt pn env data maxR fn s).attempts
      = (retry_loop u wt pn env data 0 (maxR + 1) s).attempts := by
    simp only [send_webhook_with_retry]; split <;> rfl
  rw [hdel, hatt]
  simp only [retry_loop]
  split
  · simp [List.range']
  · have hrec := retry_loop_delays_of_pos u wt pn env data maxR 1 (le_refl 1)
      ((send_webhook u (env 0).now (env 0).ts (env 0).net wt pn data s).state)
    simp [List.range', hrec]

/-- C3: Retry loop.  Part 1: for every maxRetries the background task makes
at most maxRetries + 1 delivery attempts; part 2: the backoff sleeps are
exactly min(2 ^ attempt, 5) seconds before each attempt after the first
and there is no sleep before the first (the sleep list covers attempt
indices 1 to attempts - 1); part 3: with a delivery that fails twice then
succeeds and maxRetries = 2, exactly 3 attempts occur, the run ends in
success and the sleeps are 2 s then 4 s; part 4: the loop stops at the
first successful attempt (same oracle with maxRetries = 5 still makes
exactly 3 attempts). -/
theorem webhook_retry_loop_spec :
    (∀ (u : Option String) (wt pn : String) (env : Nat → AttemptEnv)
       (data : List (String × JVal)) (maxR fn : Nat) (s : BreakerState),
       (send_webhook_with_retry u wt pn env data maxR fn s).attempts ≤ maxR + 1)
    ∧ (∀ (u : Option String) (wt pn : String) (env : Nat → AttemptEnv)
       (data : List (String × JVal)) (maxR fn : Nat) (s : BreakerState),
       (send_webhook_with_retry u wt pn env data maxR fn s).delays
         = (List.range' 1 ((send_webhook_with_retry u wt pn env data maxR fn s).attempts - 1)).map
             (fun i => min (2 ^ i) 5))
    ∧ ((send_webhook_with_retry sampleUrl msgEvt samplePhone retryScenarioEnv [] 2 50
          ⟨0, none⟩).attempts = 3
       ∧ (send_webhook_with_retry sampleUrl msgEvt samplePhone retryScenarioEnv [] 2 50
          ⟨0, none⟩).success = true
       ∧ (send_webhook_with_retry sampleUrl msgEvt samplePhone retryScenarioEnv [] 2 50
          ⟨0, none⟩).delays = [2, 4])
    ∧ (send_webhook_with_retry sampleUrl msgEvt samplePhone retryScenarioEnv [] 5 50
        ⟨0, none⟩).attempts = 3 := by
  refine ⟨fun u wt pn env data maxR fn s => ?_, retry_delays_shape,
    ⟨by decide, by decide, by decide⟩, by decide⟩
  have h := retry_loop_attempts_le u wt pn env data (maxR + 1) 0 s
  have hatt : (send_webhook_with_retry u wt pn env data maxR fn s).attempts
      = (retry_loop u wt pn env data 0 (maxR + 1) s).attempts := by
    simp only [send_webhook_with_retry]; split <;> rfl
  omega

/-- C10: Double result recording in the retry path.  Part 1: when the very
first attempt inside the background retry task succeeds over the network,
the failure counter ends two floored decrements below its starting value
(`send_webhook` records one success internally and the wrapper records a
second one for the same attempt); part 2: when every attempt fails, one
extra failure is recorded beyond the per-attempt failures (3 failing
attempts leave the counter at 4). -/
theorem retry_path_double_recording :
    (∀ (u : Option String) (wt pn : String) (env : Nat → AttemptEnv)
       (data : List (String × JVal)) (maxR fn : Nat) (s : BreakerState),
       pyTruthyStr u = true →
       validate_webhook_data (webhook_envelope wt pn (env 0).ts data) = true →
       (env 0).net = NetOutcome.ok →
       s.webhook_failures < MAX_FAILURES_BEFORE_CIRCUIT_BREAK →
       (send_webhook_with_retry u wt pn env data maxR fn s).state.webhook_failures
           = s.webhook_failures - 1 - 1
         ∧ (send_webhook_with_retry u wt pn env data maxR fn s).attempts = 1
         ∧ (send_webhook_with_retry u wt pn env data maxR fn s).success = true)
    ∧ ((send_webhook_with_retry sampleUrl msgEvt samplePhone retryFailEnv [] 2 50
          ⟨0, none⟩).attempts = 3
       ∧ (send_webhook_with_retry sampleUrl msgEvt samplePhone retryFailEnv [] 2 50
          ⟨0, none⟩).success = false
       ∧ (send_webhook_with_retry sampleUrl msgEvt samplePhone retryFailEnv [] 2 50
          ⟨0, none⟩).state.webhook_failures = 3 + 1) := by
  refine ⟨fun u wt pn env data maxR fn s hu hv hnet hf => ?_, by decide, by decide, by decide⟩
  have hsend : send_webhook u (env 0).now (env 0).ts (env 0).net wt pn data s
      = ⟨true, record_webhook_result true (env 0).now s, true⟩ := by
    rw [hnet]
    exact send_webhook_of_net_ok u (env 0).now (env 0).ts wt pn data s hu hf hv
  simp [send_webhook_with_retry, retry_loop, hsend, record_webhook_result]

/-- Witness for C10 part 1 at a concrete input: starting from 3 recorded
failures, one successful background attempt leaves the counter at 1. -/
theorem retry_path_double_recording_witness :
    (send_webhook_with_retry sampleUrl msgEvt samplePhone retryOkEnv [] 2 50
        ⟨3, some 7⟩).state.webhook_failures = 3 - 1 - 1
      ∧ (send_webhook_with_retry sampleUrl msgEvt samplePhone retryOkEnv [] 2 50
        ⟨3, some 7⟩).attempts = 1
      ∧ (send_webhook_with_retry sampleUrl msgEvt samplePhone retryOkEnv [] 2 50
        ⟨3, some 7⟩).success = true :=
  retry_path_double_recording.1 sampleUrl msgEvt samplePhone retryOkEnv [] 2 50
    ⟨3, some 7⟩ (by decide) (by decide) rfl (by decide)

/-- C4 counterexample: an envelope whose phone number has fewer than 8
characters fails validation and `send_webhook` returns false with no
network I/O, but the circuit-breaker globals are NOT left unchanged: the
cooldown check, which runs before validation, resets an over-threshold
breaker whose window has elapsed (counter 5, last failure at 10, check at
100), so the state after the call is ⟨0, none⟩ rather than ⟨5, some 10⟩. -/
theorem validation_gate_counterexample :
    validate_webhook_data (webhook_envelope msgEvt ("123") sampleTs []) = false
    ∧ (send_webhook sampleUrl 100 sampleTs NetOutcome.ok msgEvt ("123") []
        ⟨5, some 10⟩).sent = false
    ∧ (send_webhook sampleUrl 100 sampleTs NetOutcome.ok msgEvt ("123") []
        ⟨5, some 10⟩).httpAttempted = false
    ∧ (send_webhook sampleUrl 100 sampleTs NetOutcome.ok msgEvt ("123") []
        ⟨5, some 10⟩).state ≠ (⟨5, some 10⟩ : BreakerState) := by
  refine ⟨by decide, by decide, by decide, by decide⟩

/-- C4 amended: when the envelope fails validation, `send_webhook` returns
false before any HTTP request and records no delivery failure (the counter
never increases and the failure timestamp is never stamped); the breaker
globals are exactly unchanged whenever the counter is below the threshold,
and in general are either unchanged or reset to ⟨0, none⟩ by the cooldown
check that precedes validation. -/
theorem validation_gate_amended :
    ∀ (u : Option String) (now : Nat) (ts : String) (net : NetOutcome)
      (wt pn : String) (data : List (String × JVal)) (s : BreakerState),
      validate_webhook_data (webhook_envelope wt pn ts data) = false →
      (send_webhook u now ts net wt pn data s).sent = false
      ∧ (send_webhook u now ts net wt pn data s).httpAttempted = false
      ∧ (send_webhook u now ts net wt pn data s).state.webhook_failures
          ≤ s.webhook_failures
      ∧ ((send_webhook u now ts net wt pn data s).state = s
         ∨ (send_webhook u now ts net wt pn data s).state = ⟨0, none⟩)
      ∧ (s.webhook_failures < MAX_FAILURES_BEFORE_CIRCUIT_BREAK →
          (send_webhook u now ts net wt pn data s).state = s) := by
  intro u now ts net wt pn data s hv
  by_cases hu : pyTruthyStr u = false
  · simp [send_webhook, hu]
  · rcases is_circuit_broken_shape now s with h | h | h
    · simp [send_webhook, hu, h]
    · simp [send_webhook, hu, h, hv]
    · refine ⟨by simp [send_webhook, hu, h, hv], by simp [send_webhook, hu, h, hv],
        by simp [send_webhook, hu, h, hv], by simp [send_webhook, hu, h, hv], ?_⟩
      intro hf
      have hc := is_circuit_broken_closed now s hf
      rw [h] at hc
      have hs : s = (⟨0, none⟩ : BreakerState) := (Prod.mk.injEq _ _ _ _ ▸ hc).2.symm
      simp [send_webhook, hu, h, hv, hs,
        is_circuit_broken_closed now ⟨0, none⟩ (by decide)]

/-- Witness for C4 amended at a concrete input: a below-threshold breaker
state is exactly unchanged by a rejected delivery. -/
theorem validation_gate_amended_witness :
    (send_webhook sampleUrl 9 sampleTs NetOutcome.ok msgEvt ("123") []
        ⟨2, some 4⟩).sent = false
    ∧ (send_webhook sampleUrl 9 sampleTs NetOutcome.ok msgEvt ("123") []
        ⟨2, some 4⟩).httpAttempted = false
    ∧ (send_webhook sampleUrl 9 sampleTs NetOutcome.ok msgEvt ("123") []
        ⟨2, some 4⟩).state.webhook_failures ≤ 2
    ∧ ((send_webhook sampleUrl 9 sampleTs NetOutcome.ok msgEvt ("123") []
        ⟨2, some 4⟩).state = ⟨2, some 4⟩
       ∨ (send_webhook sampleUrl 9 sampleTs NetOutcome.ok msgEvt ("123") []
        ⟨2, some 4⟩).state = ⟨0, none⟩)
    ∧ ((2 : Nat) < MAX_FAILURES_BEFORE_CIRCUIT_BREAK →
        (send_webhook sampleUrl 9 sampleTs NetOutcome.ok msgEvt ("123") []
          ⟨2, some 4⟩).state = ⟨2, some 4⟩) :=
  validation_gate_amended sampleUrl 9 sampleTs NetOutcome.ok msgEvt ("123") []
    ⟨2, some 4⟩ (by decide)

theorem lookup_append_left {k : String} {v : JVal} :
    ∀ (l1 l2 : List (String × JVal)), l1.lookup k = some v
      → (l1 ++ l2).lookup k = some v := by
  intro l1 l2 h
  induction l1 with
  | nil => simp [List.lookup] at h
  | cons p t ih =>
      obtain ⟨a, b⟩ := p
      rw [List.cons_append]
      rw [List.lookup] at h ⊢
      cases heq : (k == a) with
      | true => rw [heq] at h; exact h
      | false => rw [heq] at h; exact ih h

/-- C9: Envelope merge precedence.  Part 1: any key present in the caller
payload overrides the generated envelope value under dict lookup; part 2:
concretely, a payload entry for phone_number shadows the generated one;
part 3: this shadowing is what validation and the HTTP body see: with a
valid generated phone number but a short payload override, `send_webhook`
rejects the envelope and issues no HTTP request even though the network
oracle would have succeeded. -/
theorem envelope_merge_precedence :
    (∀ (wt pn ts : String) (data : List (String × JVal)) (k : String) (v : JVal),
      data.lookup k = some v → (webhook_envelope wt pn ts data).lookup k = some v)
    ∧ (webhook_envelope msgEvt ("12345678901") sampleTs
        [(phoneKey, JVal.jstr ("123"))]).lookup phoneKey = some (JVal.jstr ("123"))
    ∧ send_webhook sampleUrl 5 sampleTs NetOutcome.ok msgEvt ("12345678901")
        [(phoneKey, JVal.jstr ("123"))] ⟨0, none⟩
        = ⟨false, ⟨0, none⟩, false⟩ := by
  refine ⟨fun wt pn ts data k v h => lookup_append_left data _ h, by decide, by decide⟩

/-- Witness for C9 part 1 at a concrete input: a payload overriding
event_type shadows the generated value in the envelope. -/
theorem envelope_merge_precedence_witness :
    (webhook_envelope msgEvt samplePhone sampleTs
        [(evtKey, JVal.jstr ("custom"))]).lookup evtKey = some (JVal.jstr ("custom")) :=
  envelope_merge_precedence.1 msgEvt samplePhone sampleTs
    [(evtKey, JVal.jstr ("custom"))] evtKey (JVal.jstr ("custom")) (by decide)

/- ------------------------------------------------------------------ -/
/- Helper lemmas about the storage operations                         -/
/- ------------------------------------------------------------------ -/

theorem create_phone_number_messages (db : DB) (pn : String) :
    (create_phone_number db pn).2.messages = db.messages := by
  unfold create_phone_number
  cases h : get_phone_by_number db pn <;> simp [h]

theorem create_phone_number_of_none (db : DB) (pn : String)
    (h : get_phone_by_number db pn = none) :
    create_phone_number db pn
      = (⟨pn, false⟩, { db with phones := db.phones ++ [⟨pn, false⟩] }) := by
  unfold create_phone_number
  rw [h]

theorem ensure_phone_messages (db : DB) (pn : String) :
    (ensure_phone db pn).messages = db.messages := by
  unfold ensure_phone
  cases h : get_phone_by_number db pn <;> simp [h, create_phone_number_messages]

theorem create_message_shape (db : DB) (pn c mt : String)
    (au af an aty : Option String) (asz : Option JVal) :
    create_message db pn c mt au af an aty asz = (none, db)
    ∨ ∃ m : StoredMessage,
        create_message db pn c mt au af an aty asz
          = (some m, { phones := (create_phone_number db pn).2.phones,
                       messages := db.messages ++ [m] })
        ∧ m.type = mt := by
  unfold create_message
  by_cases hv : validate_message_type mt = false
  · left; simp [hv]
  · by_cases hc : c = "" ∧ pyTruthyStr au = false
    · left; simp [hv, hc]
    · right
      refine ⟨{ phone_number := (create_phone_number db pn).1.number, content := c,
                type := mt, attachment := clean_attachment_data au af an aty asz },
        ?_, rfl⟩
      simp [hv, hc, create_phone_number_messages]

/-- C2: Message classification.  Every message appended by the send
endpoint has kind given by the automation flag of the existing phone row
at creation time (`ai` iff the flag is on, else `user`), and every
message appended by the receive endpoint has kind `lead` regardless of
the flag. -/
theorem message_classification :
    (∀ (env : SendEnv) (db : DB) (breaker : BreakerState) (pn : Option String)
       (c : String) (au af an aty : Option String) (asz : Option JVal),
       (send_message env db breaker pn c au af an aty asz).2.1.messages = db.messages
       ∨ ∃ (m : StoredMessage) (phone : Phone),
           get_phone_by_number db (pn.getD "") = some phone
           ∧ (send_message env db breaker pn c au af an aty asz).2.1.messages
               = db.messages ++ [m]
           ∧ m.type = send_message_type phone.ai_active
           ∧ (m.type = "ai" ↔ phone.ai_active = true))
    ∧ (∀ (env : ReceiveEnv) (db : DB) (pn : Option String) (c : String)
       (au an aty : Option String) (asz : Option JVal),
       (receive_message env db pn c au an aty asz).2.messages = db.messages
       ∨ ∃ m : StoredMessage,
           (receive_message env db pn c au an aty asz).2.messages = db.messages ++ [m]
           ∧ m.type = receive_message_type)
    ∧ send_message_type true = "ai" ∧ send_message_type false = "user" := by
  refine ⟨?_, ?_, rfl, rfl⟩
  · intro env db breaker pn c au af an aty asz
    by_cases h1 : pyTruthyStr pn = false
    · left; simp [send_message, h1]
    · by_cases h2 : c = "" ∧ pyTruthyStr au = false
      · left; simp [send_message, h1, h2]
      · cases hp : get_phone_by_number db (pn.getD "") with
        | none => left; simp [send_message, h1, h2, hp]
        | some phone =>
            rcases create_message_shape db (pn.getD "") c
                (send_message_type phone.ai_active) au af an aty asz with
              hcr | ⟨m, hcr, hty⟩
            · left; simp [send_message, h1, h2, hp, hcr]
            · right
              refine ⟨m, phone, hp ▸ rfl, ?_, hty, ?_⟩
              · simp [send_message, h1, h2, hp, hcr]
              · rw [hty]
                cases hb : phone.ai_active <;> simp [send_message_type]
  · intro env db pn c au an aty asz
    by_cases h1 : pyTruthyStr pn = false
    · left; simp [receive_message, h1]
    · by_cases h2 : c = "" ∧ pyTruthyStr au = false
      · left; simp [receive_message, h1, h2]
      · rcases create_message_shape (ensure_phone db (pn.getD "")) (pn.getD "") c
            receive_message_type
            (resolve_attachment env au an aty asz).url
            (resolve_attachment env au an aty asz).full_url
            (resolve_attachment env au an aty asz).name
            (resolve_attachment env au an aty asz).type
            (resolve_attachment env au an aty asz).size with
          hcr | ⟨m, hcr, hty⟩
        · left
          simp [receive_message, h1, h2, hcr, ensure_phone_messages]
        · right
          refine ⟨m, ?_, hty⟩
          simp [receive_message, h1, h2, hcr, ensure_phone_messages]

/-- C5: Accepted-for-retry reporting.  Whenever the send endpoint answers
successfully, the response reports webhook_sent = true, and whenever the
immediate synchronous delivery attempt returned false a background retry
was scheduled (the response conflates accepted-for-retry with
delivered). -/
theorem accepted_for_retry_reported_sent :
    ∀ (env : SendEnv) (db : DB) (breaker : BreakerState) (pn : Option String)
      (c : String) (au af an aty : Option String) (asz : Option JVal),
      (send_message env db breaker pn c au af an aty asz).1.success = true →
      (send_message env db breaker pn c au af an aty asz).1.webhook_sent = some true
      ∧ ((send_message env db breaker pn c au af an aty asz).1.webhook_sent_immediately
            = false →
          (send_message env db breaker pn c au af an aty asz).1.retry_scheduled = true) := by
  intro env db breaker pn c au af an aty asz hsucc
  by_cases h1 : pyTruthyStr pn = false
  · simp [send_message, h1, sendError] at hsucc
  · by_cases h2 : c = "" ∧ pyTruthyStr au = false
    · simp [send_message, h1, h2, sendError] at hsucc
    · cases hp : get_phone_by_number db (pn.getD "") with
      | none => simp [send_message, h1, h2, hp, sendError] at hsucc
      | some phone =>
          rcases create_message_shape db (pn.getD "") c
              (send_message_type phone.ai_active) au af an aty asz with
            hcr | ⟨m, hcr, _⟩
          · simp [send_message, h1, h2, hp, hcr, sendError] at hsucc
          · constructor
            · simp [send_message, h1, h2, hp, hcr]
            · intro him
              simp only [send_message, h1, h2, hp, hcr] at him ⊢
              simp at him ⊢
              simp [him]

/-- Witness for C5 at a concrete input: the phone exists, the immediate
webhook attempt fails over the network, and the response still reports
webhook_sent = true with a scheduled retry. -/
theorem accepted_for_retry_reported_sent_witness :
    (send_message sendEnvFail ⟨[⟨"+5511999999999", false⟩], []⟩ ⟨0, none⟩
        (some ("+5511999999999")) ("hello") none none none none none).1.webhook_sent
      = some true
    ∧ ((send_message sendEnvFail ⟨[⟨"+5511999999999", false⟩], []⟩ ⟨0, none⟩
        (some ("+5511999999999")) ("hello") none none none none
        none).1.webhook_sent_immediately = false →
       (send_message sendEnvFail ⟨[⟨"+5511999999999", false⟩], []⟩ ⟨0, none⟩
        (some ("+5511999999999")) ("hello") none none none none
        none).1.retry_scheduled = true) :=
  accepted_for_retry_reported_sent sendEnvFail ⟨[⟨"+5511999999999", false⟩], []⟩
    ⟨0, none⟩ (some ("+5511999999999")) ("hello") none none none none none
    (by decide)

/-- C7 counterexample: on the outbound send path an unknown phone number
is NOT auto-created; the endpoint answers 404 before reaching message
creation, no conversation and no message are recorded. -/
theorem conversation_autocreation_counterexample :
    (send_message sendEnv0 ⟨[], []⟩ ⟨0, none⟩ (some ("+5511999999999")) ("hello")
        none none none none none).1.success = false
    ∧ (send_message sendEnv0 ⟨[], []⟩ ⟨0, none⟩ (some ("+5511999999999")) ("hello")
        none none none none none).1.http_status = 404
    ∧ (send_message sendEnv0 ⟨[], []⟩ ⟨0, none⟩ (some ("+5511999999999")) ("hello")
        none none none none none).2.1 = (⟨[], []⟩ : DB) := by
  refine ⟨by decide, by decide, by decide⟩

/-- C7 amended: conversation auto-creation holds on the inbound receive
path and in the storage-layer create_message, which both create the
phone row and record the message when the number is unknown; the
outbound send endpoint instead rejects an unknown phone number with a
404 response before message creation, leaving store and breaker
untouched. -/
theorem conversation_autocreation_amended :
    (∀ (env : ReceiveEnv) (db : DB) (pn c : String),
      pn ≠ "" → get_phone_by_number db pn = none → c ≠ "" →
      (receive_message env db (some pn) c none none none none).1.success = true
      ∧ (receive_message env db (some pn) c none none none none).2.phones
          = db.phones ++ [⟨pn, false⟩]
      ∧ ∃ m, (receive_message env db (some pn) c none none none none).2.messages
          = db.messages ++ [m])
    ∧ (∀ (db : DB) (pn c : String),
      get_phone_by_number db pn = none → c ≠ "" →
      ∃ m, create_message db pn c receive_message_type none none none none none
          = (some m, { phones := db.phones ++ [⟨pn, false⟩],
                       messages := db.messages ++ [m] }))
    ∧ (∀ (env : SendEnv) (db : DB) (breaker : BreakerState) (pn c : String)
        (au af an aty : Option String) (asz : Option JVal),
      pn ≠ "" → get_phone_by_number db pn = none →
      send_message env db breaker (some pn) c au af an aty asz
        = (sendError 404, db, breaker)
      ∨ send_message env db breaker (some pn) c au af an aty asz
        = (sendError 400, db, breaker)) := by
  refine ⟨?_, ?_, ?_⟩
  · intro env db pn c hpn hget hc
    have h1 : pyTruthyStr (some pn) = false ↔ False := by simp [pyTruthyStr, hpn]
    have h2 : ¬(c = "" ∧ pyTruthyStr (none : Option String) = false) := by
      simp [hc]
    have hres : resolve_attachment env none none none none
        = { url := none, full_url := none, name := none, type := none,
            size := none } := rfl
    rcases create_message_shape (ensure_phone db pn) pn c receive_message_type
        none none none none none with hcr | ⟨m, hcr, _⟩
    · exfalso
      unfold create_message at hcr
      simp [receive_message_type, validate_message_type, hc] at hcr
    · have hep : ensure_phone db pn
          = { db with phones := db.phones ++ [⟨pn, false⟩] } := by
        unfold ensure_phone
        rw [hget, create_phone_number_of_none db pn hget]
      refine ⟨?_, ?_, m, ?_⟩
      · simp [receive_message, h1, h2, hres, hcr]
      · simp [receive_message, h1, h2, hres, hcr]
        rw [hep] at hcr ⊢
        have hph : (create_phone_number
            ({ db with phones := db.phones ++ [⟨pn, false⟩] } : DB) pn).2.phones
            = db.phones ++ [⟨pn, false⟩] := by
          unfold create_phone_number
          cases hg : get_phone_by_number
              ({ db with phones := db.phones ++ [⟨pn, false⟩] } : DB) pn with
          | some p => rfl
          | none =>
              exfalso
              have : (⟨pn, false⟩ : Phone) ∈
                  ({ db with phones := db.phones ++ [⟨pn, false⟩] } : DB).phones := by
                simp
              have hf := List.find?_eq_none.mp hg ⟨pn, false⟩ this
              simp at hf
        simp [hcr, hph]
      · simp [receive_message, h1, h2, hres, hcr]
        rw [hep] at hcr
        simp [hcr, ensure_phone_messages]
  · intro db pn c hget hc
    rcases create_message_shape db pn c receive_message_type
        none none none none none with hcr | ⟨m, hcr, _⟩
    · exfalso
      unfold create_message at hcr
      simp [receive_message_type, validate_message_type, hc] at hcr
    · refine ⟨m, ?_⟩
      rw [hcr, create_phone_number_of_none db pn hget]
  · intro env db breaker pn c au af an aty asz hpn hget
    have h1 : pyTruthyStr (some pn) = true := by simp [pyTruthyStr, hpn]
    by_cases h2 : c = "" ∧ pyTruthyStr au = false
    · right; simp [send_message, h1, h2]
    · left; simp [send_message, h1, h2, hget]

/-- Witness for C7 amended at a concrete input: an empty store, the
inbound receive path and the storage layer auto-create the conversation,
the outbound send endpoint answers 404. -/
theorem conversation_autocreation_amended_witness :
    ((receive_message recvEnv0 ⟨[], []⟩ (some ("+5511999999999")) ("reply")
        none none none none).1.success = true
      ∧ (receive_message recvEnv0 ⟨[], []⟩ (some ("+5511999999999")) ("reply")
        none none none none).2.phones = [] ++ [⟨"+5511999999999", false⟩]
      ∧ ∃ m, (receive_message recvEnv0 ⟨[], []⟩ (some ("+5511999999999")) ("reply")
        none none none none).2.messages = [] ++ [m])
    ∧ (∃ m, create_message ⟨[], []⟩ ("+5511999999999") ("reply") receive_message_type
        none none none none none
        = (some m, { phones := [] ++ [⟨"+5511999999999", false⟩],
                     messages := [] ++ [m] }))
    ∧ (send_message sendEnv0 ⟨[], []⟩ ⟨0, none⟩ (some ("+5511999999999")) ("hello")
        none none none none none = (sendError 404, ⟨[], []⟩, ⟨0, none⟩)
       ∨ send_message sendEnv0 ⟨[], []⟩ ⟨0, none⟩ (some ("+5511999999999")) ("hello")
        none none none none none = (sendError 400, ⟨[], []⟩, ⟨0, none⟩)) :=
  ⟨conversation_autocreation_amended.1 recvEnv0 ⟨[], []⟩ ("+5511999999999") ("reply")
      (by decide) rfl (by decide),
   conversation_autocreation_amended.2.1 ⟨[], []⟩ ("+5511999999999") ("reply")
      rfl (by decide),
   conversation_autocreation_amended.2.2 sendEnv0 ⟨[], []⟩ ⟨0, none⟩
      ("+5511999999999") ("hello") none none none none none (by decide) rfl⟩

/-- C6 counterexample: a remote file of 100 MiB whose server sends no
content-length header and for which the caller supplied no size passes
the ceiling check (declared size 0) and IS saved to local blob storage
with a success result, although 100 MiB exceeds the 50 MiB ceiling. -/
theorem download_size_ceiling_counterexample :
    (download_attachment_enhanced bigDownloadEnv ("http://x/file.jpg")
        (some ("file.jpg")) none none).success = true
    ∧ (download_attachment_enhanced bigDownloadEnv ("http://x/file.jpg")
        (some ("file.jpg")) none none).saved = true
    ∧ (download_attachment_enhanced bigDownloadEnv ("http://x/file.jpg")
        (some ("file.jpg")) none none).size = some 104857600
    ∧ MAX_UPLOAD_SIZE < 104857600 := by
  refine ⟨by decide, by decide, by decide, by decide⟩

/-- C6 amended: the 50 MiB ceiling is enforced against the DECLARED size
only — the content-length header value when present, else the
caller-supplied size, else 0.  A download whose declared size exceeds
the ceiling is rejected and nothing is saved (part 1: header present;
part 2: header absent, caller-supplied integer size); the byte count
actually downloaded is never re-checked, so an oversized body with an
absent or understated declared size is saved (the counterexample). -/
theorem download_size_ceiling_amended :
    (∀ (env : DownloadEnv) (url : String) (ofn oty : Option String)
       (osz : Option JVal) (n : Nat),
       env.content_length = some n → MAX_UPLOAD_SIZE < n →
       download_attachment_enhanced env url ofn oty osz = downloadFailure)
    ∧ (∀ (env : DownloadEnv) (url : String) (ofn oty : Option String) (k : Int),
       env.content_length = none → (MAX_UPLOAD_SIZE : Int) < k →
       download_attachment_enhanced env url ofn oty (some (JVal.jint k))
         = downloadFailure) := by
  constructor
  · intro env url ofn oty osz n hcl hn
    by_cases hnet : env.netOk = false
    · simp [download_attachment_enhanced, hnet]
    · have hlt : (MAX_UPLOAD_SIZE : Int) < (n : Int) := by exact_mod_cast hn
      simp [download_attachment_enhanced, hnet, hcl, hlt]
  · intro env url ofn oty k hcl hk
    by_cases hnet : env.netOk = false
    · simp [download_attachment_enhanced, hnet]
    · have hk0 : k ≠ 0 := by
        intro h
        rw [h] at hk
        exact absurd hk (by decide)
      simp [download_attachment_enhanced, hnet, hcl, jTruthy, pyInt, hk0, hk]

/-- Witness for C6 amended at concrete inputs: a declared size one byte
over the ceiling is rejected in both the header and the caller-supplied
case. -/
theorem download_size_ceiling_amended_witness :
    download_attachment_enhanced
        ⟨true, some 52428801, 0, "resp.bin", "u2"⟩ ("http://x/file.jpg")
        (some ("file.jpg")) none none = downloadFailure
    ∧ download_attachment_enhanced
        ⟨true, none, 0, "resp.bin", "u3"⟩ ("http://x/file.jpg")
        (some ("file.jpg")) none (some (JVal.jint 52428801)) = downloadFailure :=
  ⟨download_size_ceiling_amended.1 ⟨true, some 52428801, 0, "resp.bin", "u2"⟩
      ("http://x/file.jpg") (some ("file.jpg")) none none 52428801 rfl (by decide),
   download_size_ceiling_amended.2 ⟨true, none, 0, "resp.bin", "u3"⟩
      ("http://x/file.jpg") (some ("file.jpg")) none 52428801 rfl (by decide)⟩

/-- C8: Attachment metadata invariant.  With a (truthy) url present the
cleaner always stores a type from the enumerated set (unknown or missing
input types coerce to file) and a size that is a positive integer or
absent; with no url (None or empty) it returns the all-empty record; the
concrete coercions of the spec hold: spreadsheet becomes file and -5
becomes absent. -/
theorem attachment_cleaner_invariant :
    (∀ (u fu n t : Option String) (sz : Option JVal),
      pyTruthyStr u = true →
      (∃ ct, (clean_attachment_data u fu n t sz).attachment_type = some ct
         ∧ valid_types.contains ct = true)
      ∧ (∀ m : Int,
          (clean_attachment_data u fu n t sz).attachment_size = some m → 0 < m))
    ∧ (∀ (fu n t : Option String) (sz : Option JVal),
        clean_attachment_data none fu n t sz = emptyCleaned
        ∧ clean_attachment_data (some ("")) fu n t sz = emptyCleaned)
    ∧ (clean_attachment_data (some ("u.bin")) none none (some ("spreadsheet"))
        (some (JVal.jint 2048))).attachment_type = some ("file")
    ∧ (clean_attachment_data (some ("u.bin")) none none (some ("spreadsheet"))
        (some (JVal.jint 2048))).attachment_size = some 2048
    ∧ (clean_attachment_data (some ("u.bin")) none none (some ("image"))
        (some (JVal.jint (-5)))).attachment_size = none := by
  refine ⟨?_, ?_, by decide, by decide, by decide⟩
  · intro u fu n t sz hu
    constructor
    · by_cases hc : (pyTruthyStr t && valid_types.contains (t.getD "")) = true
      · refine ⟨t.getD "", ?_, ?_⟩
        · unfold clean_attachment_data
          rw [if_neg (by simp [hu]), if_pos hc]
        · have hc2 := hc
          simp only [Bool.and_eq_true] at hc2
          exact hc2.2
      · refine ⟨"file", ?_, by decide⟩
        unfold clean_attachment_data
        rw [if_neg (by simp [hu]), if_neg hc]
    · intro m hm
      simp only [clean_attachment_data, hu] at hm
      simp at hm
      cases sz with
      | none => simp at hm
      | some v =>
          cases hpi : pyInt v with
          | none => simp [hpi] at hm
          | some k =>
              simp [hpi] at hm
              rw [← hm.2]
              exact hm.1
  · intro fu n t sz
    exact ⟨rfl, by simp [clean_attachment_data, pyTruthyStr]⟩

/-- Witness for C8 at concrete inputs: a cleaned spreadsheet-typed
attachment satisfies the type and size invariants, and absent or empty
urls produce the empty record. -/
theorem attachment_cleaner_invariant_witness :
    ((∃ ct, (clean_attachment_data (some ("u.bin")) none none (some ("spreadsheet"))
        (some (JVal.jint 2048))).attachment_type = some ct
        ∧ valid_types.contains ct = true)
     ∧ (∀ m : Int, (clean_attachment_data (some ("u.bin")) none none
        (some ("spreadsheet")) (some (JVal.jint 2048))).attachment_size = some m
        → 0 < m))
    ∧ (clean_attachment_data none none none none none = emptyCleaned
       ∧ clean_attachment_data (some ("")) none none none none = emptyCleaned) :=
  ⟨attachment_cleaner_invariant.1 (some ("u.bin")) none none (some ("spreadsheet"))
      (some (JVal.jint 2048)) (by decide),
   attachment_cleaner_invariant.2.1 none none none none⟩
